import Mathlib

/-!
Verification of the OYHustle job/expense/payment core.

Shallow embedding of the data model (src/types/index.ts), the financial
derivations of JobDetailScreen.tsx, the payment-recording recomputation of
PaymentScreen.tsx, the PaymentService settlement simulator, the Job/Client
storage repositories, the jobs slice thunks/reducers, and the BudgetAnalytics
engine.  JavaScript numbers are modelled as exact rationals; dates used only
for chronological ordering are modelled as natural-number timestamps
(the value of new Date(x).getTime()).
-/

set_option autoImplicit false

namespace OYHustle

/-- Job workflow status (types/index.ts, Job.status). -/
inductive JobStatus where
  | Quoted
  | Accepted
  | InProgress
  | Completed
  | Cancelled
  deriving DecidableEq

/-- Payment method (types/index.ts, Payment.method). -/
inductive PaymentMethod where
  | paypal
  | gcash
  | cash
  | card
  | venmo
  deriving DecidableEq

/-- Payment settlement status (types/index.ts, Payment.status). -/
inductive PaymentStatus where
  | pending
  | completed
  | failed
  | cancelled
  deriving DecidableEq

/-- Expense record (types/index.ts).  `date` is the chronological timestamp
used by the analytics trend sort (new Date(e.date).getTime()). -/
structure Expense where
  id : String
  description : String
  amount : ℚ
  isReimbursable : Bool
  date : Nat
  deriving DecidableEq

/-- Payment record (types/index.ts). -/
structure Payment where
  id : String
  jobId : String
  amount : ℚ
  method : PaymentMethod
  status : PaymentStatus
  transactionId : Option String
  paymentDate : String
  notes : Option String
  deriving DecidableEq

/-- Job record (types/index.ts).  `payments` is optional in the source;
the code always reads it as `job.payments || []`, so it is a plain list here.
`pay` is the field read by BudgetAnalytics.calculateBudgetSummary and
AddExpenseScreen (the TypeScript interface omits it but the code uses it). -/
structure Job where
  id : String
  jobName : String
  clientId : String
  clientName : String
  quote : ℚ
  pay : ℚ
  status : JobStatus
  expenses : List Expense
  payments : List Payment
  deriving DecidableEq

/-- Client record (types/index.ts). -/
structure Client where
  id : String
  fullName : String
  address : String
  phoneNumber : String
  emailAddress : String
  createdDate : String
  deriving DecidableEq

/-- Payment request (types/index.ts). -/
structure PaymentRequest where
  jobId : String
  amount : ℚ
  method : PaymentMethod
  description : String
  paymentDate : Option String
  deriving DecidableEq

/-- JavaScript Math.max on two numbers. -/
def mathMax (a b : ℚ) : ℚ := if a ≤ b then b else a

namespace JobDetailScreen

/-- JobDetailScreen.tsx calculateTotalExpenses:
job.expenses.reduce((sum, expense) => sum + expense.amount, 0). -/
def calculateTotalExpenses (job : Job) : ℚ :=
  job.expenses.foldl (fun sum expense => sum + expense.amount) 0

/-- JobDetailScreen.tsx calculateProfit: quote minus the sum of the
non-reimbursable expense amounts (reimbursable ones add 0). -/
def calculateProfit (job : Job) : ℚ :=
  let unreimbursedExpenses :=
    job.expenses.foldl
      (fun sum expense => sum + (if expense.isReimbursable then 0 else expense.amount)) 0
  job.quote - unreimbursedExpenses

/-- JobDetailScreen.tsx calculateReimbursableTotal:
job.expenses.filter(e => e.isReimbursable).reduce((sum, e) => sum + e.amount, 0). -/
def calculateReimbursableTotal (job : Job) : ℚ :=
  (job.expenses.filter (fun e => e.isReimbursable)).foldl (fun sum e => sum + e.amount) 0

/-- JobDetailScreen.tsx calculateTotalPaid: payments with status neither
failed nor cancelled, summed. -/
def calculateTotalPaid (job : Job) : ℚ :=
  (job.payments.filter
      (fun p => p.status ≠ PaymentStatus.failed ∧ p.status ≠ PaymentStatus.cancelled)).foldl
    (fun sum p => sum + p.amount) 0

/-- JobDetailScreen.tsx calculateAmountOwed:
Math.max(totalDue - totalPaid, 0) with totalDue = quote + reimbursable total. -/
def calculateAmountOwed (job : Job) : ℚ :=
  let totalDue := job.quote + calculateReimbursableTotal job
  let totalPaid := calculateTotalPaid job
  mathMax (totalDue - totalPaid) 0

end JobDetailScreen

namespace PaymentScreen

/-- PaymentScreen.tsx processPayment success branch:
newPayments = [...(job.payments || []), result.payment]. -/
def newPayments (job : Job) (payment : Payment) : List Payment :=
  job.payments ++ [payment]

/-- PaymentScreen.tsx processPayment success branch:
totalPaid = newPayments.reduce((sum, p) => sum + p.amount, 0)
(note: no status filter here, unlike JobDetailScreen). -/
def totalPaidRecompute (job : Job) (payment : Payment) : ℚ :=
  (newPayments job payment).foldl (fun sum p => sum + p.amount) 0

/-- PaymentScreen.tsx processPayment success branch:
reimbursableTotal = job.expenses.filter(e => e.isReimbursable).reduce(..., 0). -/
def reimbursableTotalRecompute (job : Job) : ℚ :=
  (job.expenses.filter (fun e => e.isReimbursable)).foldl (fun s e => s + e.amount) 0

/-- PaymentScreen.tsx processPayment success branch:
amountOwed = Math.max(totalDue - totalPaid, 0) with
totalDue = job.quote + reimbursableTotal. -/
def amountOwedRecompute (job : Job) (payment : Payment) : ℚ :=
  let totalDue := job.quote + reimbursableTotalRecompute job
  mathMax (totalDue - totalPaidRecompute job payment) 0

/-- PaymentScreen.tsx processPayment success branch:
updatedJob = { ...job, payments: newPayments,
status: amountOwed <= 0 ? Completed : job.status }. -/
def updatedJob (job : Job) (payment : Payment) : Job :=
  { job with
    payments := newPayments job payment
    status :=
      if amountOwedRecompute job payment ≤ 0 then JobStatus.Completed else job.status }

end PaymentScreen

namespace PaymentService

/-- PaymentService.ts PaymentResult: { success, payment?, error? }. -/
structure PaymentResult where
  success : Bool
  payment : Option Payment
  error : Option String
  deriving DecidableEq

/-- PaymentService.processCashPayment: immediately completed, synthetic
CASH_ transaction id.  `now` stands for new Date().toISOString(). -/
def processCashPayment (paymentId : String) (now : String)
    (request : PaymentRequest) : PaymentResult :=
  { success := true
    payment := some
      { id := paymentId
        jobId := request.jobId
        amount := request.amount
        method := PaymentMethod.cash
        status := PaymentStatus.completed
        transactionId := some (String.append "CASH_" paymentId)
        paymentDate := now
        notes := some "Cash payment received" }
    error := none }

/-- PaymentService.processPayPalPayment: after the simulated latency the
Math.random draw (modelled by `isSuccessful`) either yields a completed
payment with a PP_ transaction id, or the declined error is caught and a
failed payment record plus the error message is returned. -/
def processPayPalPayment (paymentId : String) (now : String) (randomId : String)
    (isSuccessful : Bool) (request : PaymentRequest) : PaymentResult :=
  if isSuccessful then
    { success := true
      payment := some
        { id := paymentId
          jobId := request.jobId
          amount := request.amount
          method := PaymentMethod.paypal
          status := PaymentStatus.completed
          transactionId := some (String.append "PP_" randomId)
          paymentDate := now
          notes := some "PayPal payment completed" }
      error := none }
  else
    { success := false
      payment := some
        { id := paymentId
          jobId := request.jobId
          amount := request.amount
          method := PaymentMethod.paypal
          status := PaymentStatus.failed
          transactionId := none
          paymentDate := now
          notes := some "PayPal payment was declined" }
      error := some "PayPal payment was declined" }

/-- PaymentService.processGCashPayment: same shape as PayPal with a GC_
transaction id and its own decline message. -/
def processGCashPayment (paymentId : String) (now : String) (randomId : String)
    (isSuccessful : Bool) (request : PaymentRequest) : PaymentResult :=
  if isSuccessful then
    { success := true
      payment := some
        { id := paymentId
          jobId := request.jobId
          amount := request.amount
          method := PaymentMethod.gcash
          status := PaymentStatus.completed
          transactionId := some (String.append "GC_" randomId)
          paymentDate := now
          notes := some "GCash payment completed" }
      error := none }
  else
    { success := false
      payment := some
        { id := paymentId
          jobId := request.jobId
          amount := request.amount
          method := PaymentMethod.gcash
          status := PaymentStatus.failed
          transactionId := none
          paymentDate := now
          notes := some "GCash payment was declined or timed out" }
      error := some "GCash payment was declined or timed out" }

/-- PaymentService.processPayment: switch on the method.  cash, paypal and
gcash dispatch to their handlers; every other method (card, venmo) reaches
the default branch, whose thrown "Unsupported payment method" error is caught
by the surrounding try/catch and returned as { success: false, error } with no
payment record.  The timestamp id, clock and random draw are the
paymentId/now/randomId/isSuccessful parameters. -/
def processPayment (paymentId : String) (now : String) (randomId : String)
    (isSuccessful : Bool) (request : PaymentRequest) : PaymentResult :=
  match request.method with
  | PaymentMethod.cash => processCashPayment paymentId now request
  | PaymentMethod.paypal => processPayPalPayment paymentId now randomId isSuccessful request
  | PaymentMethod.gcash => processGCashPayment paymentId now randomId isSuccessful request
  | PaymentMethod.card =>
      { success := false, payment := none, error := some "Unsupported payment method" }
  | PaymentMethod.venmo =>
      { success := false, payment := none, error := some "Unsupported payment method" }

end PaymentService

namespace StorageService

/-- StorageService.saveJob: append the job to the stored collection. -/
def saveJob (jobs : List Job) (job : Job) : List Job :=
  jobs ++ [job]

/-- StorageService.updateJob: findIndex on the id; -1 throws a not-found
Error, otherwise the record with the id is replaced in place via map and the
new collection is written. -/
def updateJob (jobs : List Job) (updatedJob : Job) : Except String (List Job) :=
  if List.findIdx (fun job => job.id = updatedJob.id) jobs < jobs.length then
    Except.ok (jobs.map fun job => if job.id = updatedJob.id then updatedJob else job)
  else
    Except.error "NotFoundError"

/-- StorageService.deleteJob run against a stored collection: the pair holds
the thrown error or unit result, and the collection persisted afterwards.
The not-found error is thrown before any write, so the stored collection is
unchanged on that path; otherwise the records with the id are filtered out. -/
def deleteJob (jobs : List Job) (id : String) : Except String Unit × List Job :=
  match jobs.find? (fun job => job.id = id) with
  | none => (Except.error "NotFoundError", jobs)
  | some _ => (Except.ok (), jobs.filter fun job => ¬ job.id = id)

end StorageService

namespace ClientService

/-- ClientService updateClient: findIndex on the id; -1 throws a not-found
Error; otherwise every record with the id is filtered out and the updated
record is appended at the end of the collection. -/
def updateClient (clients : List Client) (updatedClient : Client) :
    Except String (List Client) :=
  if List.findIdx (fun c => c.id = updatedClient.id) clients < clients.length then
    Except.ok ((clients.filter fun c => ¬ c.id = updatedClient.id) ++ [updatedClient])
  else
    Except.error "NotFoundError"

end ClientService

namespace JobsSlice

/-- jobsSlice filter values. -/
inductive JobFilter where
  | all
  | active
  | completed
  deriving DecidableEq

/-- jobsSlice in-memory state. -/
structure JobsState where
  jobs : List Job
  loading : Bool
  error : Option String
  filter : JobFilter
  deriving DecidableEq

/-- modifyJob thunk: try StorageService.updateJob; if it throws, fall back to
StorageService.saveJob for the same record (upsert).  Returns the collection
persisted afterwards. -/
def modifyJob (stored : List Job) (job : Job) : List Job :=
  match StorageService.updateJob stored job with
  | Except.ok newJobs => newJobs
  | Except.error _ => StorageService.saveJob stored job

/-- modifyJob.fulfilled reducer: loading := false, error := null, and the
in-memory entry with matching id is overwritten when findIndex is not -1;
when no entry matches, the list is left untouched (nothing is appended). -/
def modifyJobFulfilled (state : JobsState) (payload : Job) : JobsState :=
  let index := List.findIdx (fun job => job.id = payload.id) state.jobs
  if index < state.jobs.length then
    { state with loading := false, error := none, jobs := state.jobs.set index payload }
  else
    { state with loading := false, error := none }

end JobsSlice

namespace BudgetAnalytics

/-- BudgetAnalytics BudgetSummary record. -/
structure BudgetSummary where
  totalEarnings : ℚ
  totalExpenses : ℚ
  netProfit : ℚ
  profitMargin : ℚ
  reimbursableExpenses : ℚ
  taxDeductibleExpenses : ℚ
  deriving DecidableEq

/-- BudgetAnalytics.calculateBudgetSummary: earnings sum job.pay, expenses and
reimbursable expenses sum over the flattened expense lists, netProfit adds the
reimbursable total back, profitMargin is the percentage when totalEarnings > 0
and 0 otherwise, and 85% of expenses are assumed tax deductible. -/
def calculateBudgetSummary (jobs : List Job) : BudgetSummary :=
  let totalEarnings := jobs.foldl (fun sum job => sum + job.pay) 0
  let allExpenses := jobs.flatMap (fun job => job.expenses)
  let totalExpenses := allExpenses.foldl (fun sum expense => sum + expense.amount) 0
  let reimbursableExpenses :=
    (allExpenses.filter (fun expense => expense.isReimbursable)).foldl
      (fun sum expense => sum + expense.amount) 0
  let netProfit := totalEarnings - totalExpenses + reimbursableExpenses
  let profitMargin := if 0 < totalEarnings then netProfit / totalEarnings * 100 else 0
  let taxDeductibleExpenses := totalExpenses * (85 / 100)
  { totalEarnings := totalEarnings
    totalExpenses := totalExpenses
    netProfit := netProfit
    profitMargin := profitMargin
    reimbursableExpenses := reimbursableExpenses
    taxDeductibleExpenses := taxDeductibleExpenses }

/-- Category trend values. -/
inductive Trend where
  | up
  | down
  | stable
  deriving DecidableEq

/-- Stable insertion into a date-sorted list: an element is placed before the
first element with a strictly later or equal date drawn from further right in
the original list, matching the stable Array.prototype.sort with comparator
(a, b) => dateA - dateB. -/
def insertByDate (e : Expense) : List Expense → List Expense
  | [] => [e]
  | x :: xs => if e.date ≤ x.date then e :: x :: xs else x :: insertByDate e xs

/-- Chronological stable sort of an expense list by date. -/
def sortByDate : List Expense → List Expense
  | [] => []
  | x :: xs => insertByDate x (sortByDate xs)

/-- BudgetAnalytics.calculateTrend: fewer than 2 expenses is stable; otherwise
sort chronologically, split at floor(length / 2) (slice(0, k) / slice(k)),
average each half with reduce, and classify the percentage change of the
second half against the first: > 10 up, < -10 down, otherwise stable. -/
def calculateTrend (expenses : List Expense) : Trend :=
  if expenses.length < 2 then Trend.stable
  else
    let sortedExpenses := sortByDate expenses
    let firstHalf := sortedExpenses.take (sortedExpenses.length / 2)
    let secondHalf := sortedExpenses.drop (sortedExpenses.length / 2)
    let firstHalfAvg :=
      firstHalf.foldl (fun sum exp => sum + exp.amount) 0 / (firstHalf.length : ℚ)
    let secondHalfAvg :=
      secondHalf.foldl (fun sum exp => sum + exp.amount) 0 / (secondHalf.length : ℚ)
    let changePercent := (secondHalfAvg - firstHalfAvg) / firstHalfAvg * 100
    if 10 < changePercent then Trend.up
    else if changePercent < -10 then Trend.down
    else Trend.stable

/-- The trend classification in the words of the specification: sort the
expenses of the category chronologically, split the sorted list in half, and
compare the average amounts of the two halves; a change greater than +10%
gives up, less than -10% gives down, otherwise stable; fewer than 2 expenses
is always stable. -/
def trendSpecification (expenses : List Expense) : Trend :=
  if expenses.length < 2 then Trend.stable
  else
    let sorted := sortByDate expenses
    let firstHalf := sorted.take (sorted.length / 2)
    let secondHalf := sorted.drop (sorted.length / 2)
    let firstAverage := (firstHalf.map Expense.amount).sum / (firstHalf.length : ℚ)
    let secondAverage := (secondHalf.map Expense.amount).sum / (secondHalf.length : ℚ)
    let change := (secondAverage - firstAverage) / firstAverage * 100
    if 10 < change then Trend.up
    else if change < -10 then Trend.down
    else Trend.stable

end BudgetAnalytics

/-! Concrete records used by counterexamples and witnesses. -/

/-- A ledger entry that failed settlement, amount 50. -/
def failedPayment50 : Payment :=
  { id := "p0", jobId := "job1", amount := 50, method := PaymentMethod.card,
    status := PaymentStatus.failed, transactionId := none,
    paymentDate := "2025-01-01", notes := none }

/-- A completed cash payment, amount 50. -/
def completedPayment50 : Payment :=
  { id := "p1", jobId := "job1", amount := 50, method := PaymentMethod.cash,
    status := PaymentStatus.completed, transactionId := some "CASH_p1",
    paymentDate := "2025-01-02", notes := none }

/-- A completed cash payment, amount 100. -/
def completedPayment100 : Payment :=
  { id := "p2", jobId := "job1", amount := 100, method := PaymentMethod.cash,
    status := PaymentStatus.completed, transactionId := some "CASH_p2",
    paymentDate := "2025-01-02", notes := none }

/-- Quote-100 job whose ledger already holds a failed payment of 50. -/
def jobWithFailedPayment : Job :=
  { id := "job1", jobName := "fence", clientId := "c1", clientName := "Ann Lee",
    quote := 100, pay := 0, status := JobStatus.InProgress,
    expenses := [], payments := [failedPayment50] }

/-- Quote-100 cancelled job with an empty ledger. -/
def cancelledJob : Job :=
  { id := "job2", jobName := "deck", clientId := "c1", clientName := "Ann Lee",
    quote := 100, pay := 0, status := JobStatus.Cancelled,
    expenses := [], payments := [] }

/-- Quote-100 in-progress job with an empty ledger. -/
def freshJob : Job :=
  { id := "job3", jobName := "shed", clientId := "c1", clientName := "Ann Lee",
    quote := 100, pay := 0, status := JobStatus.InProgress,
    expenses := [], payments := [] }

/-- Job used by the budget-summary counterexample: negative pay. -/
def negativePayJob : Job :=
  { id := "job4", jobName := "loss", clientId := "c1", clientName := "Ann Lee",
    quote := 0, pay := -100, status := JobStatus.Completed,
    expenses := [], payments := [] }

/-- Job with positive pay and one reimbursable 30 / one plain 50 expense. -/
def earningJob : Job :=
  { id := "job5", jobName := "gate", clientId := "c1", clientName := "Ann Lee",
    quote := 500, pay := 200, status := JobStatus.Completed,
    expenses :=
      [ { id := "e1", description := "gas", amount := 50, isReimbursable := false,
          date := 1 },
        { id := "e2", description := "paint supply", amount := 30, isReimbursable := true,
          date := 2 } ],
    payments := [] }

/-- Card-method payment request (hits the unsupported default branch). -/
def cardRequest : PaymentRequest :=
  { jobId := "job1", amount := 100, method := PaymentMethod.card,
    description := "Payment for fence", paymentDate := none }

/-- Venmo-method payment request (hits the unsupported default branch). -/
def venmoRequest : PaymentRequest :=
  { jobId := "job1", amount := 100, method := PaymentMethod.venmo,
    description := "Payment for fence", paymentDate := none }

/-- PayPal-method payment request. -/
def paypalRequest : PaymentRequest :=
  { jobId := "job1", amount := 100, method := PaymentMethod.paypal,
    description := "Payment for fence", paymentDate := none }

/-- Clients sharing nothing; clientA2 carries the id of clientA with new data. -/
def clientA : Client :=
  { id := "c1", fullName := "Ann Lee", address := "1 Elm St",
    phoneNumber := "555-0001", emailAddress := "ann@example.com",
    createdDate := "2024-01-01" }

/-- Second client, distinct id. -/
def clientB : Client :=
  { id := "c2", fullName := "Bob Roe", address := "2 Oak St",
    phoneNumber := "555-0002", emailAddress := "bob@example.com",
    createdDate := "2024-01-02" }

/-- Updated copy of clientA (same id, new address). -/
def clientA2 : Client :=
  { id := "c1", fullName := "Ann Lee", address := "9 Pine St",
    phoneNumber := "555-0001", emailAddress := "ann@example.com",
    createdDate := "2024-01-01" }

/-- Three same-category expenses 100, 100, 130 in chronological order. -/
def expensesUpward : List Expense :=
  [ { id := "t1", description := "gas", amount := 100, isReimbursable := false, date := 1 },
    { id := "t2", description := "gas", amount := 100, isReimbursable := false, date := 2 },
    { id := "t3", description := "gas", amount := 130, isReimbursable := false, date := 3 } ]

/-- Three same-category expenses 100, 100, 95 in chronological order. -/
def expensesFlat : List Expense :=
  [ { id := "t4", description := "gas", amount := 100, isReimbursable := false, date := 1 },
    { id := "t5", description := "gas", amount := 100, isReimbursable := false, date := 2 },
    { id := "t6", description := "gas", amount := 95, isReimbursable := false, date := 3 } ]

/-- In-memory jobs state holding only the cancelled job. -/
def stateWithCancelledJob : JobsSlice.JobsState :=
  { jobs := [cancelledJob], loading := false, error := none,
    filter := JobsSlice.JobFilter.all }

/-! Helper lemmas. -/

/-- reduce((sum, a) => sum + f a, init) computes init plus the mapped sum. -/
theorem foldl_add_eq_sum {α : Type} (f : α → ℚ) (l : List α) :
    ∀ init : ℚ, l.foldl (fun sum a => sum + f a) init = init + (l.map f).sum := by
  induction l with
  | nil => intro init; simp
  | cons a l ih =>
      intro init
      simp only [List.foldl_cons, List.map_cons, List.sum_cons, ih]
      ring

/-- Math.max agrees with the lattice max on ℚ. -/
theorem mathMax_eq_max (a b : ℚ) : mathMax a b = max a b := by
  simp [mathMax, max_def]

/-- The amount sum of a list splits into the reimbursable part and the
if-guarded unreimbursed part used by calculateProfit. -/
theorem sum_amount_split (l : List Expense) :
    (l.map Expense.amount).sum
      = ((l.filter (fun e => e.isReimbursable)).map Expense.amount).sum
        + (l.map (fun e => if e.isReimbursable then 0 else e.amount)).sum := by
  induction l with
  | nil => simp
  | cons e l ih =>
      cases h : e.isReimbursable <;>
        simp [List.filter_cons, h, ih] <;> ring

/-- The if-guarded unreimbursed sum equals the sum over the filtered
non-reimbursable expenses. -/
theorem sum_unreimbursed_eq_filter (l : List Expense) :
    (l.map (fun e => if e.isReimbursable then 0 else e.amount)).sum
      = ((l.filter (fun e => !e.isReimbursable)).map Expense.amount).sum := by
  induction l with
  | nil => simp
  | cons e l ih =>
      cases h : e.isReimbursable <;> simp [List.filter_cons, h, ih]

/-! Claim theorems. -/

/-- C6: for every Job, profit(job) = quote - totalExpenses(job) +
reimbursableTotal(job), and this coincides with the non-reimbursable-only
formula quote minus the sum of the amounts of the expenses that are not
reimbursable. -/
theorem profit_two_formulations (job : Job) :
    JobDetailScreen.calculateProfit job
      = job.quote - JobDetailScreen.calculateTotalExpenses job
        + JobDetailScreen.calculateReimbursableTotal job
    ∧ JobDetailScreen.calculateProfit job
      = job.quote
        - ((job.expenses.filter (fun e => !e.isReimbursable)).map Expense.amount).sum := by
  have hTotal : JobDetailScreen.calculateTotalExpenses job
      = (job.expenses.map Expense.amount).sum := by
    simp [JobDetailScreen.calculateTotalExpenses, foldl_add_eq_sum]
  have hReimb : JobDetailScreen.calculateReimbursableTotal job
      = ((job.expenses.filter (fun e => e.isReimbursable)).map Expense.amount).sum := by
    simp [JobDetailScreen.calculateReimbursableTotal, foldl_add_eq_sum]
  have hProfit : JobDetailScreen.calculateProfit job
      = job.quote
        - (job.expenses.map (fun e => if e.isReimbursable then 0 else e.amount)).sum := by
    simp [JobDetailScreen.calculateProfit, foldl_add_eq_sum]
  constructor
  · rw [hProfit, hTotal, hReimb, sum_amount_split job.expenses]
    ring
  · rw [hProfit, sum_unreimbursed_eq_filter]

/-- C2: after recording a successful payment, if the recomputed amount owed is
0 the status of the job becomes Completed regardless of its prior status (including
Cancelled), and if the recomputed amount owed is positive the status is left
unchanged. -/
theorem status_auto_transition (job : Job) (payment : Payment) :
    (PaymentScreen.amountOwedRecompute job payment = 0 →
      (PaymentScreen.updatedJob job payment).status = JobStatus.Completed)
    ∧ (0 < PaymentScreen.amountOwedRecompute job payment →
      (PaymentScreen.updatedJob job payment).status = job.status) := by
  constructor
  · intro h
    simp [PaymentScreen.updatedJob, h]
  · intro h
    have hn : ¬ PaymentScreen.amountOwedRecompute job payment ≤ 0 := not_le.mpr h
    simp [PaymentScreen.updatedJob, hn]

/-- C2 witness: a Cancelled quote-100 job paid in full is forced to Completed
by the auto-transition. -/
theorem status_auto_transition_witness :
    cancelledJob.status = JobStatus.Cancelled
    ∧ (PaymentScreen.updatedJob cancelledJob completedPayment100).status
      = JobStatus.Completed := by
  refine ⟨rfl, (status_auto_transition cancelledJob completedPayment100).1 ?_⟩
  norm_num [PaymentScreen.amountOwedRecompute, PaymentScreen.totalPaidRecompute,
    PaymentScreen.reimbursableTotalRecompute, PaymentScreen.newPayments,
    cancelledJob, completedPayment100, mathMax]

/-- C1 counterexample: with a failed payment of 50 already in the ledger of a
quote-100 job, the payment-screen recomputation after a successful payment of
50 yields 0 while the canonical derivation (which excludes failed/cancelled
payments) yields 50 on the very same updated job, so the payment screen does
not use the same definition of amount owed. -/
theorem paymentScreen_recompute_counterexample :
    PaymentScreen.amountOwedRecompute jobWithFailedPayment completedPayment50 = 0
    ∧ JobDetailScreen.calculateAmountOwed
        (PaymentScreen.updatedJob jobWithFailedPayment completedPayment50) = 50
    ∧ PaymentScreen.amountOwedRecompute jobWithFailedPayment completedPayment50
      ≠ JobDetailScreen.calculateAmountOwed
          (PaymentScreen.updatedJob jobWithFailedPayment completedPayment50) := by
  norm_num +decide [PaymentScreen.amountOwedRecompute, PaymentScreen.totalPaidRecompute,
    PaymentScreen.reimbursableTotalRecompute, PaymentScreen.newPayments,
    PaymentScreen.updatedJob, JobDetailScreen.calculateAmountOwed,
    JobDetailScreen.calculateTotalPaid, JobDetailScreen.calculateReimbursableTotal,
    jobWithFailedPayment, completedPayment50, failedPayment50, mathMax, List.filter]

/-- C1 amended: the JobDetailScreen derivation equals
max(quote + reimbursable total - totalPaid, 0) with failed/cancelled payments
excluded from totalPaid, and is never negative; the payment-screen
recomputation instead subtracts the sum of all ledger amounts without the
status exclusion, and agrees with the canonical derivation exactly on ledgers
free of failed/cancelled payments. -/
theorem amountOwed_derivations (job : Job) :
    JobDetailScreen.calculateAmountOwed job
      = mathMax ((job.quote
            + ((job.expenses.filter (fun e => e.isReimbursable)).map Expense.amount).sum)
          - ((job.payments.filter (fun p =>
                p.status ≠ PaymentStatus.failed ∧ p.status ≠ PaymentStatus.cancelled)).map
              Payment.amount).sum) 0
    ∧ 0 ≤ JobDetailScreen.calculateAmountOwed job
    ∧ ∀ payment : Payment,
        PaymentScreen.amountOwedRecompute job payment
          = mathMax ((job.quote
                + ((job.expenses.filter (fun e => e.isReimbursable)).map Expense.amount).sum)
              - ((job.payments ++ [payment]).map Payment.amount).sum) 0
        ∧ ((∀ p ∈ job.payments ++ [payment],
              p.status ≠ PaymentStatus.failed ∧ p.status ≠ PaymentStatus.cancelled) →
            PaymentScreen.amountOwedRecompute job payment
              = JobDetailScreen.calculateAmountOwed (PaymentScreen.updatedJob job payment)) := by
  refine ⟨?_, ?_, ?_⟩
  · simp [JobDetailScreen.calculateAmountOwed, JobDetailScreen.calculateReimbursableTotal,
      JobDetailScreen.calculateTotalPaid, foldl_add_eq_sum]
  · simp only [JobDetailScreen.calculateAmountOwed, mathMax_eq_max]
    exact le_max_right _ _
  · intro payment
    constructor
    · simp [PaymentScreen.amountOwedRecompute, PaymentScreen.totalPaidRecompute,
        PaymentScreen.reimbursableTotalRecompute, PaymentScreen.newPayments,
        foldl_add_eq_sum]
    · intro h
      have hfilter :
          ((job.payments ++ [payment]).filter (fun p =>
              !decide (p.status = PaymentStatus.failed)
                && !decide (p.status = PaymentStatus.cancelled)))
            = job.payments ++ [payment] := by
        refine List.filter_eq_self.mpr ?_
        intro p hp
        have hs := h p hp
        simp [hs.1, hs.2]
      simp [PaymentScreen.amountOwedRecompute, PaymentScreen.totalPaidRecompute,
        PaymentScreen.reimbursableTotalRecompute, PaymentScreen.newPayments,
        PaymentScreen.updatedJob, JobDetailScreen.calculateAmountOwed,
        JobDetailScreen.calculateReimbursableTotal, JobDetailScreen.calculateTotalPaid,
        hfilter, foldl_add_eq_sum]

/-- C1 witness: on a job with an empty ledger receiving a completed payment,
the payment-screen recomputation and the canonical derivation agree, and the
canonical derivation is nonnegative. -/
theorem amountOwed_derivations_witness :
    PaymentScreen.amountOwedRecompute freshJob completedPayment50
      = JobDetailScreen.calculateAmountOwed
          (PaymentScreen.updatedJob freshJob completedPayment50)
    ∧ 0 ≤ JobDetailScreen.calculateAmountOwed freshJob := by
  refine ⟨((amountOwed_derivations freshJob).2.2 completedPayment50).2 ?_,
    (amountOwed_derivations freshJob).2.1⟩
  intro p hp
  simp only [freshJob, List.nil_append, List.mem_singleton] at hp
  subst hp
  exact ⟨by decide, by decide⟩

/-- C3 counterexample: a card-method request (one of the four methods the
claim covers) neither succeeds nor fails with a failed Payment record: the
default switch branch yields success = false with no payment at all. -/
theorem processPayment_card_counterexample :
    (PaymentService.processPayment "payment_1" "2025-01-01" "R1" true cardRequest).success
      = false
    ∧ (PaymentService.processPayment "payment_1" "2025-01-01" "R1" true cardRequest).payment
      = none := by
  constructor <;> rfl

/-- C3 amended: for paypal and gcash requests processPayment either succeeds
with a completed Payment carrying a generated transactionId, or fails with a
failed Payment record and an error message; card and venmo requests instead
reach the default branch, whose thrown error is caught and returned as
success = false with the Unsupported payment method message and no Payment
record.  In every case the outcome is a returned PaymentResult. -/
theorem processPayment_amended (paymentId now randomId : String) (ok : Bool)
    (request : PaymentRequest) :
    ((request.method = PaymentMethod.paypal ∨ request.method = PaymentMethod.gcash) →
      ((PaymentService.processPayment paymentId now randomId ok request).success = true
        ∧ ∃ p, (PaymentService.processPayment paymentId now randomId ok request).payment
              = some p
            ∧ p.status = PaymentStatus.completed ∧ p.transactionId ≠ none
            ∧ p.amount = request.amount ∧ p.jobId = request.jobId)
      ∨ ((PaymentService.processPayment paymentId now randomId ok request).success = false
        ∧ (PaymentService.processPayment paymentId now randomId ok request).error ≠ none
        ∧ ∃ p, (PaymentService.processPayment paymentId now randomId ok request).payment
              = some p
            ∧ p.status = PaymentStatus.failed
            ∧ p.amount = request.amount ∧ p.jobId = request.jobId))
    ∧ ((request.method = PaymentMethod.card ∨ request.method = PaymentMethod.venmo) →
      PaymentService.processPayment paymentId now randomId ok request
        = { success := false, payment := none,
            error := some "Unsupported payment method" }) := by
  constructor
  · intro hm
    rcases hm with h | h <;> cases ok <;>
      simp [PaymentService.processPayment, h, PaymentService.processPayPalPayment,
        PaymentService.processGCashPayment]
  · intro hm
    rcases hm with h | h <;>
      simp [PaymentService.processPayment, h]

/-- C3 witness: a concrete venmo request returns the unsupported-method
failure with no payment record, and a concrete successful paypal request
settles with one of the two contracted outcomes. -/
theorem processPayment_amended_witness :
    PaymentService.processPayment "payment_1" "2025-01-01" "R1" true venmoRequest
      = { success := false, payment := none,
          error := some "Unsupported payment method" }
    ∧ ((PaymentService.processPayment "payment_1" "2025-01-01" "R1" true paypalRequest).success
          = true
        ∨ (PaymentService.processPayment "payment_1" "2025-01-01" "R1" true paypalRequest).success
          = false) :=
  ⟨(processPayment_amended "payment_1" "2025-01-01" "R1" true venmoRequest).2 (Or.inr rfl),
    Or.imp And.left And.left
      ((processPayment_amended "payment_1" "2025-01-01" "R1" true paypalRequest).1
        (Or.inl rfl))⟩

/-- C4 counterexample: updating the first of two stored clients moves the
updated record to the end of the collection instead of leaving it in place,
so the Client repository does not preserve the position of the updated record. -/
theorem updateClient_order_counterexample :
    ClientService.updateClient [clientA, clientB] clientA2
      = Except.ok [clientB, clientA2]
    ∧ ClientService.updateClient [clientA, clientB] clientA2
      ≠ Except.ok [clientA2, clientB] := by
  have h1 : ClientService.updateClient [clientA, clientB] clientA2
      = Except.ok [clientB, clientA2] := rfl
  refine ⟨h1, ?_⟩
  intro hcontra
  rw [h1] at hcontra
  have hlist : [clientB, clientA2] = [clientA2, clientB] := Except.ok.inj hcontra
  have hne : clientB ≠ clientA2 := by decide
  injection hlist with hhead _
  exact hne hhead

/-- C4 amended: both repositories fail with a not-found error when no stored
record carries the id of the entity.  When one does, the Job repository replaces
the record in place — the result has the same length and position i holds the
old record unless its id matches, in which case it holds the update — while
the Client repository removes every record with that id and appends the
updated record at the end, preserving only the relative order of the
other records. -/
theorem repository_update_contract :
    (∀ (jobs : List Job) (u : Job),
      ((∀ j ∈ jobs, j.id ≠ u.id) →
        StorageService.updateJob jobs u = Except.error "NotFoundError")
      ∧ ((∃ j ∈ jobs, j.id = u.id) →
        ∃ result, StorageService.updateJob jobs u = Except.ok result
          ∧ result.length = jobs.length
          ∧ ∀ i : Nat, result[i]? = (jobs[i]?).map fun j => if j.id = u.id then u else j))
    ∧ ∀ (clients : List Client) (u : Client),
      ((∀ c ∈ clients, c.id ≠ u.id) →
        ClientService.updateClient clients u = Except.error "NotFoundError")
      ∧ ((∃ c ∈ clients, c.id = u.id) →
        ClientService.updateClient clients u
          = Except.ok ((clients.filter fun c => ¬ c.id = u.id) ++ [u])) := by
  constructor
  · intro jobs u
    constructor
    · intro h
      have hidx : List.findIdx (fun j => j.id = u.id) jobs = jobs.length := by
        refine List.findIdx_eq_length.mpr ?_
        intro x hx
        simp [h x hx]
      simp [StorageService.updateJob, hidx]
    · intro h
      have hlt : List.findIdx (fun j => j.id = u.id) jobs < jobs.length := by
        refine List.findIdx_lt_length_of_exists ?_
        rcases h with ⟨j, hj, hid⟩
        exact ⟨j, hj, by simp [hid]⟩
      refine ⟨jobs.map fun j => if j.id = u.id then u else j, ?_, by simp, ?_⟩
      · simp [StorageService.updateJob, hlt]
      · intro i
        simp [List.getElem?_map]
  · intro clients u
    constructor
    · intro h
      have hidx : List.findIdx (fun c => c.id = u.id) clients = clients.length := by
        refine List.findIdx_eq_length.mpr ?_
        intro x hx
        simp [h x hx]
      simp [ClientService.updateClient, hidx]
    · intro h
      have hlt : List.findIdx (fun c => c.id = u.id) clients < clients.length := by
        refine List.findIdx_lt_length_of_exists ?_
        rcases h with ⟨c, hc, hid⟩
        exact ⟨c, hc, by simp [hid]⟩
      simp [ClientService.updateClient, hlt]

/-- C4 witness: updating into an empty Job collection is a not-found error,
and updating a stored client rewrites the collection as filtered-plus-append. -/
theorem repository_update_contract_witness :
    StorageService.updateJob [] freshJob = Except.error "NotFoundError"
    ∧ ClientService.updateClient [clientA, clientB] clientA2
      = Except.ok (([clientA, clientB].filter fun c => ¬ c.id = clientA2.id) ++ [clientA2]) :=
  ⟨(repository_update_contract.1 [] freshJob).1 (by simp),
    (repository_update_contract.2 [clientA, clientB] clientA2).2
      ⟨clientA, by simp, by decide⟩⟩

/-- C5: the modifyJob upsert always succeeds: the resulting persisted
collection contains the job; when no stored record has the id the update
fails and the create fallback appends the record, and when one does the
update replaces it in place. -/
theorem modifyJob_upsert (stored : List Job) (job : Job) :
    job ∈ JobsSlice.modifyJob stored job
    ∧ ((∀ j ∈ stored, j.id ≠ job.id) →
        JobsSlice.modifyJob stored job = stored ++ [job])
    ∧ ((∃ j ∈ stored, j.id = job.id) →
        JobsSlice.modifyJob stored job = stored.map fun j => if j.id = job.id then job else j) := by
  have habsent : (∀ j ∈ stored, j.id ≠ job.id) →
      JobsSlice.modifyJob stored job = stored ++ [job] := by
    intro h
    have hidx : List.findIdx (fun j => j.id = job.id) stored = stored.length := by
      refine List.findIdx_eq_length.mpr ?_
      intro x hx
      simp [h x hx]
    simp [JobsSlice.modifyJob, StorageService.updateJob, hidx, StorageService.saveJob]
  have hpresent : (∃ j ∈ stored, j.id = job.id) →
      JobsSlice.modifyJob stored job
        = stored.map fun j => if j.id = job.id then job else j := by
    intro h
    have hlt : List.findIdx (fun j => j.id = job.id) stored < stored.length := by
      refine List.findIdx_lt_length_of_exists ?_
      rcases h with ⟨j, hj, hid⟩
      exact ⟨j, hj, by simp [hid]⟩
    simp [JobsSlice.modifyJob, StorageService.updateJob, hlt]
  refine ⟨?_, habsent, hpresent⟩
  by_cases hc : ∃ j ∈ stored, j.id = job.id
  · rw [hpresent hc]
    rcases hc with ⟨j, hj, hid⟩
    exact List.mem_map.mpr ⟨j, hj, by simp [hid]⟩
  · push_neg at hc
    rw [habsent hc]
    simp

/-- C5 witness: upserting a never-persisted job into the empty collection
appends it, and the result contains it. -/
theorem modifyJob_upsert_witness :
    freshJob ∈ JobsSlice.modifyJob [] freshJob
    ∧ JobsSlice.modifyJob [] freshJob = [] ++ [freshJob] :=
  ⟨(modifyJob_upsert [] freshJob).1,
    (modifyJob_upsert [] freshJob).2.1 (by simp)⟩

/-- C9: deleting an id absent from the stored collection yields the not-found
error and leaves the persisted collection untouched (the error is thrown
before any write); deleting an id held by exactly one record removes exactly
that record and keeps every other record. -/
theorem deleteJob_contract (jobs : List Job) (id : String) :
    ((∀ j ∈ jobs, j.id ≠ id) →
      StorageService.deleteJob jobs id = (Except.error "NotFoundError", jobs))
    ∧ ∀ (l1 l2 : List Job) (j : Job),
        jobs = l1 ++ j :: l2 → j.id = id → (∀ x ∈ l1 ++ l2, x.id ≠ id) →
        StorageService.deleteJob jobs id = (Except.ok (), l1 ++ l2) := by
  constructor
  · intro h
    have hnone : List.find? (fun job => job.id = id) jobs = none := by
      refine List.find?_eq_none.mpr ?_
      intro x hx
      simp [h x hx]
    simp [StorageService.deleteJob, hnone]
  · intro l1 l2 j hsplit hid hothers
    subst hsplit
    cases hfind : List.find? (fun job => job.id = id) (l1 ++ j :: l2) with
    | none =>
        exfalso
        have := List.find?_eq_none.mp hfind j
          (List.mem_append_right l1 (List.mem_cons_self j l2))
        simp [hid] at this
    | some x =>
        have h1 : List.filter (fun job => !decide (job.id = id)) l1 = l1 := by
          refine List.filter_eq_self.mpr ?_
          intro y hy
          simp [hothers y (List.mem_append_left l2 hy)]
        have h2 : List.filter (fun job => !decide (job.id = id)) l2 = l2 := by
          refine List.filter_eq_self.mpr ?_
          intro y hy
          simp [hothers y (List.mem_append_right l1 hy)]
        simp [StorageService.deleteJob, hfind, List.filter_append, List.filter_cons,
          hid, h1, h2]

/-- C9 witness: deleting a missing id from a singleton collection errors and
preserves the collection; deleting the present id removes that one record. -/
theorem deleteJob_contract_witness :
    StorageService.deleteJob [freshJob] "nope"
      = (Except.error "NotFoundError", [freshJob])
    ∧ StorageService.deleteJob [cancelledJob, freshJob] "job3"
      = (Except.ok (), [cancelledJob]) :=
  ⟨(deleteJob_contract [freshJob] "nope").1 (by decide),
    (deleteJob_contract [cancelledJob, freshJob] "job3").2 [cancelledJob] [] freshJob
      rfl (by decide) (by decide)⟩

/-- C10: when the id of the upserted job is absent from the in-memory list, the
modifyJob.fulfilled reducer leaves the list unchanged (it never appends),
even though the create fallback of the thunk appended the record to the persisted
collection. -/
theorem modifyJobFulfilled_absent (state : JobsSlice.JobsState) (job : Job) :
    (∀ j ∈ state.jobs, j.id ≠ job.id) →
      (JobsSlice.modifyJobFulfilled state job).jobs = state.jobs
      ∧ job ∈ JobsSlice.modifyJob state.jobs job := by
  intro h
  have hidx : List.findIdx (fun j => j.id = job.id) state.jobs = state.jobs.length := by
    refine List.findIdx_eq_length.mpr ?_
    intro x hx
    simp [h x hx]
  constructor
  · simp [JobsSlice.modifyJobFulfilled, hidx]
  · have hstore : JobsSlice.modifyJob state.jobs job = state.jobs ++ [job] := by
      simp [JobsSlice.modifyJob, StorageService.updateJob, hidx, StorageService.saveJob]
    rw [hstore]
    simp

/-- C10 witness: upserting a job with a fresh id against a state holding one
other job leaves the in-memory list unchanged while the persisted collection
gains the record. -/
theorem modifyJobFulfilled_absent_witness :
    (JobsSlice.modifyJobFulfilled stateWithCancelledJob freshJob).jobs
      = stateWithCancelledJob.jobs
    ∧ freshJob ∈ JobsSlice.modifyJob stateWithCancelledJob.jobs freshJob :=
  modifyJobFulfilled_absent stateWithCancelledJob freshJob (by decide)

/-- C7 counterexample: on a collection whose only job has pay -100 the
totalEarnings of the summary is -100 (nonzero), yet profitMargin is 0 while
netProfit / totalEarnings * 100 is 100, so the claimed margin formula fails
at a nonzero totalEarnings. -/
theorem budgetSummary_margin_counterexample :
    (BudgetAnalytics.calculateBudgetSummary [negativePayJob]).totalEarnings = -100
    ∧ (BudgetAnalytics.calculateBudgetSummary [negativePayJob]).profitMargin = 0
    ∧ (BudgetAnalytics.calculateBudgetSummary [negativePayJob]).netProfit
        / (BudgetAnalytics.calculateBudgetSummary [negativePayJob]).totalEarnings * 100
      = 100
    ∧ (BudgetAnalytics.calculateBudgetSummary [negativePayJob]).profitMargin
      ≠ (BudgetAnalytics.calculateBudgetSummary [negativePayJob]).netProfit
          / (BudgetAnalytics.calculateBudgetSummary [negativePayJob]).totalEarnings * 100 := by
  norm_num [BudgetAnalytics.calculateBudgetSummary, negativePayJob]

/-- C7 amended: the summary components are the stated sums,
netProfit = totalEarnings - totalExpenses + reimbursableExpenses,
taxDeductibleExpenses = totalExpenses * 0.85, and profitMargin equals
netProfit / totalEarnings * 100 when totalEarnings is positive and is 0
whenever totalEarnings ≤ 0 (not only at exactly 0). -/
theorem budgetSummary_amended (jobs : List Job) :
    (BudgetAnalytics.calculateBudgetSummary jobs).totalEarnings = (jobs.map Job.pay).sum
    ∧ (BudgetAnalytics.calculateBudgetSummary jobs).totalExpenses
      = ((jobs.flatMap Job.expenses).map Expense.amount).sum
    ∧ (BudgetAnalytics.calculateBudgetSummary jobs).reimbursableExpenses
      = (((jobs.flatMap Job.expenses).filter (fun e => e.isReimbursable)).map
          Expense.amount).sum
    ∧ (BudgetAnalytics.calculateBudgetSummary jobs).netProfit
      = (BudgetAnalytics.calculateBudgetSummary jobs).totalEarnings
        - (BudgetAnalytics.calculateBudgetSummary jobs).totalExpenses
        + (BudgetAnalytics.calculateBudgetSummary jobs).reimbursableExpenses
    ∧ (0 < (BudgetAnalytics.calculateBudgetSummary jobs).totalEarnings →
        (BudgetAnalytics.calculateBudgetSummary jobs).profitMargin
          = (BudgetAnalytics.calculateBudgetSummary jobs).netProfit
            / (BudgetAnalytics.calculateBudgetSummary jobs).totalEarnings * 100)
    ∧ ((BudgetAnalytics.calculateBudgetSummary jobs).totalEarnings ≤ 0 →
        (BudgetAnalytics.calculateBudgetSummary jobs).profitMargin = 0)
    ∧ (BudgetAnalytics.calculateBudgetSummary jobs).taxDeductibleExpenses
      = (BudgetAnalytics.calculateBudgetSummary jobs).totalExpenses * (85 / 100) := by
  refine ⟨?_, ?_, ?_, ?_, ?_, ?_, ?_⟩
  · simp [BudgetAnalytics.calculateBudgetSummary, foldl_add_eq_sum]
  · simp [BudgetAnalytics.calculateBudgetSummary, foldl_add_eq_sum]
  · simp [BudgetAnalytics.calculateBudgetSummary, foldl_add_eq_sum]
  · simp [BudgetAnalytics.calculateBudgetSummary]
  · intro h
    simp only [BudgetAnalytics.calculateBudgetSummary] at h ⊢
    rw [if_pos h]
  · intro h
    simp only [BudgetAnalytics.calculateBudgetSummary] at h ⊢
    rw [if_neg (not_lt.mpr h)]
  · simp [BudgetAnalytics.calculateBudgetSummary]

/-- C7 witness: the amended margin clauses applied at a positive-earnings
collection and at the empty collection. -/
theorem budgetSummary_amended_witness :
    (BudgetAnalytics.calculateBudgetSummary [earningJob]).profitMargin
      = (BudgetAnalytics.calculateBudgetSummary [earningJob]).netProfit
        / (BudgetAnalytics.calculateBudgetSummary [earningJob]).totalEarnings * 100
    ∧ (BudgetAnalytics.calculateBudgetSummary []).profitMargin = 0 :=
  ⟨(budgetSummary_amended [earningJob]).2.2.2.2.1
      (by norm_num [BudgetAnalytics.calculateBudgetSummary, earningJob]),
    (budgetSummary_amended []).2.2.2.2.2.1
      (by norm_num [BudgetAnalytics.calculateBudgetSummary])⟩

/-- C8: calculateTrend implements the specified classification — it agrees
with the spec-worded trendSpecification on every expense list, is stable on
fewer than 2 expenses, classifies 100, 100 then 130 as up and 100, 100 then
95 as stable. -/
theorem calculateTrend_matches_spec :
    (∀ expenses : List Expense,
      BudgetAnalytics.calculateTrend expenses
        = BudgetAnalytics.trendSpecification expenses)
    ∧ (∀ expenses : List Expense, expenses.length < 2 →
      BudgetAnalytics.calculateTrend expenses = BudgetAnalytics.Trend.stable)
    ∧ BudgetAnalytics.calculateTrend expensesUpward = BudgetAnalytics.Trend.up
    ∧ BudgetAnalytics.calculateTrend expensesFlat = BudgetAnalytics.Trend.stable := by
  refine ⟨?_, ?_, ?_, ?_⟩
  · intro expenses
    simp [BudgetAnalytics.calculateTrend, BudgetAnalytics.trendSpecification,
      foldl_add_eq_sum]
  · intro expenses h
    simp [BudgetAnalytics.calculateTrend, h]
  · norm_num [BudgetAnalytics.calculateTrend, BudgetAnalytics.sortByDate,
      BudgetAnalytics.insertByDate, expensesUpward, List.take, List.drop]
  · norm_num [BudgetAnalytics.calculateTrend, BudgetAnalytics.sortByDate,
      BudgetAnalytics.insertByDate, expensesFlat, List.take, List.drop]

/-- C8 witness: the fewer-than-2 clause applied to a singleton list. -/
theorem calculateTrend_matches_spec_witness :
    BudgetAnalytics.calculateTrend [
      { id := "t7", description := "gas", amount := 40, isReimbursable := false,
        date := 1 }] = BudgetAnalytics.Trend.stable :=
  calculateTrend_matches_spec.2.1 _ (by decide)

end OYHustle
